import Mathlib

/-!
Shallow embedding of the hotel room booking dashboard (src/src/App.js).

The component keeps four pieces of local state (properties, rooms,
bookings, selection), three remote tables behind a generic query client,
and a handful of operations: loadData, loadRooms, loadBookings,
toggleRoomBooking, plus pure derived queries isRoomBooked,
getAvailableRooms, getTotalRooms, getRoomsByCategory,
getUniqueCategories.

Network calls are modelled by passing the remote table contents plus a
success flag for each fetch; every load/toggle operation becomes a pure
function from (state, remote, outcomes) to (state, issued requests).
-/

/-- A row of the `properties` table: `{id, name}`. -/
structure Property where
  id : Nat
  name : String
deriving DecidableEq

/-- A row of the `rooms` table: `{id, property_id, name, category}`. -/
structure Room where
  id : Nat
  property_id : Nat
  name : String
  category : String
deriving DecidableEq

/-- A row of the `bookings` table:
`{id, room_id, booking_date, is_booked}`. -/
structure Booking where
  id : Nat
  room_id : Nat
  booking_date : String
  is_booked : Bool
deriving DecidableEq

/-- The local component state relevant to data synchronization:
properties, selectedProperty, selectedDate, rooms, bookings, error,
loading, isOnline (App.js lines 6-16). -/
structure AppState where
  properties : List Property
  selectedProperty : Nat
  selectedDate : String
  rooms : List Room
  bookings : List Booking
  error : Option String
  loading : Bool
  isOnline : Bool
deriving DecidableEq

/-- Contents of the three remote tables held by the backend service. -/
structure Remote where
  properties : List Property
  rooms : List Room
  bookings : List Booking
deriving DecidableEq

/-- A network request issued by the client, as sent to the backend. -/
inductive NetRequest where
  | selectProperties : NetRequest
  | selectRooms : Nat → NetRequest
  | selectBookings : List Nat → String → NetRequest
  | deleteBooking : Nat → NetRequest
  | insertBooking : Nat → String → Bool → NetRequest
deriving DecidableEq

/-- Boolean string strict order, mirroring the backend comparator. -/
def strLt (a b : String) : Bool := decide (a < b)

/-- Boolean string order, mirroring the backend comparator. -/
def strLe (a b : String) : Bool := decide (a ≤ b)

/-- Insert an element into a list sorted by `le` (backend ordering). -/
def insertLe {α : Type} (le : α → α → Bool) (x : α) : List α → List α
  | [] => [x]
  | y :: ys => if le x y then x :: y :: ys else y :: insertLe le x ys

/-- Insertion sort by `le`, modelling the `.order(...)` clause executed
by the backend. -/
def sortLe {α : Type} (le : α → α → Bool) (l : List α) : List α :=
  l.foldr (insertLe le) []

/-- The `properties` rows ordered by id (`.order(id)`). -/
def propertyLe (a b : Property) : Bool := decide (a.id ≤ b.id)

/-- The `rooms` rows ordered by `(category, name)`
(`.order(category, name)`). -/
def roomLe (a b : Room) : Bool :=
  if a.category = b.category then strLe a.name b.name
  else strLt a.category b.category

/-- Backend evaluation of `from(properties).select(star).order(id)`. -/
def selectPropertiesQ (remote : Remote) : List Property :=
  sortLe propertyLe remote.properties

/-- Backend evaluation of
`from(rooms).select(star).eq(property_id, pid).order(category, name)`. -/
def selectRoomsQ (remote : Remote) (propertyId : Nat) : List Room :=
  sortLe roomLe (remote.rooms.filter (fun room => room.property_id == propertyId))

/-- Backend evaluation of
`from(bookings).select(star).in(room_id, roomIds).eq(booking_date, date)`. -/
def selectBookingsQ (remote : Remote) (roomIds : List Nat) (date : String) :
    List Booking :=
  remote.bookings.filter
    (fun b => roomIds.contains b.room_id && b.booking_date == date)

/-- Function `isRoomBooked` (App.js 224-226):
`bookings.some(booking => booking.room_id === roomId)`. -/
def isRoomBooked (bookings : List Booking) (roomId : Nat) : Bool :=
  bookings.any (fun booking => booking.room_id == roomId)

/-- Function `getAvailableRooms` (App.js 228-230):
`rooms.filter(room => !isRoomBooked(room.id)).length`. -/
def getAvailableRooms (rooms : List Room) (bookings : List Booking) : Nat :=
  (rooms.filter (fun room => !isRoomBooked bookings room.id)).length

/-- Function `getTotalRooms` (App.js 232-234): `rooms.length`. -/
def getTotalRooms (rooms : List Room) : Nat :=
  rooms.length

/-- Function `getRoomsByCategory` (App.js 236-238):
`rooms.filter(room => room.category === category)`. -/
def getRoomsByCategory (rooms : List Room) (category : String) : List Room :=
  rooms.filter (fun room => room.category == category)

/-- One step of JavaScript `Set` construction: insertion keeps the first
occurrence and ignores later duplicates. -/
def jsSetInsert (acc : List String) (x : String) : List String :=
  if x ∈ acc then acc else acc ++ [x]

/-- JavaScript `[...new Set(l)]`: deduplicate keeping first-occurrence
insertion order. -/
def jsSetOfList (l : List String) : List String :=
  l.foldl jsSetInsert []

/-- Function `getUniqueCategories` (App.js 240-242):
`[...new Set(rooms.map(room => room.category))]`. -/
def getUniqueCategories (rooms : List Room) : List String :=
  jsSetOfList (rooms.map (fun room => room.category))

/-- Index of the first occurrence of `c` in `l` (length of `l` when
absent). -/
def firstIdx (l : List String) (c : String) : Nat :=
  l.findIdx (fun x => x == c)

/-- JavaScript `optId || fallback` on ids; `0` is falsy in JavaScript,
so a present id of `0` still falls through to the fallback. Models
`propertiesData[selectedProperty]?.id || propertiesData[0].id`. -/
def jsOrId (optId : Option Nat) (fallback : Nat) : Nat :=
  match optId with
  | some n => if n = 0 then fallback else n
  | none => fallback

/-- Function `loadBookings(roomsData = rooms)` (App.js 126-144): early return on
an empty room list; otherwise issue the bookings select and, on
success, replace the local booking list. The catch branch only logs to
the console, so a failed fetch leaves the state untouched. -/
def loadBookings (s : AppState) (remote : Remote) (ok : Bool)
    (roomsData : List Room) : AppState × List NetRequest :=
  if roomsData.length = 0 then (s, [])
  else
    let roomIds := roomsData.map (fun room => room.id)
    if ok then
      ({ s with bookings := selectBookingsQ remote roomIds s.selectedDate },
        [NetRequest.selectBookings roomIds s.selectedDate])
    else (s, [NetRequest.selectBookings roomIds s.selectedDate])

/-- Function `loadRooms(propertyId)` (App.js 105-124): fetch rooms for the
property; on success replace the room list and, if non-empty, refresh
bookings for the fetched rooms. The catch branch only logs to the
console, so a failed fetch leaves the state untouched. -/
def loadRooms (s : AppState) (remote : Remote) (roomsOk bookingsOk : Bool)
    (propertyId : Nat) : AppState × List NetRequest :=
  if roomsOk then
    let data := selectRoomsQ remote propertyId
    let s1 := { s with rooms := data }
    if data.length > 0 then
      let r := loadBookings s1 remote bookingsOk data
      (r.1, NetRequest.selectRooms propertyId :: r.2)
    else (s1, [NetRequest.selectRooms propertyId])
  else (s, [NetRequest.selectRooms propertyId])

/-- Function `loadData` (App.js 76-103): set loading, clear the error, fetch
properties ordered by id; on success store them and, when non-empty,
load rooms for the selected (or first) property. A properties-fetch
failure sets the user-visible error message; the finally block always
clears loading. -/
def loadData (s : AppState) (remote : Remote)
    (propsOk roomsOk bookingsOk : Bool) : AppState × List NetRequest :=
  let s0 := { s with loading := true, error := none }
  if propsOk then
    let propertiesData := selectPropertiesQ remote
    let s1 := { s0 with properties := propertiesData }
    match propertiesData with
    | [] => ({ s1 with loading := false }, [NetRequest.selectProperties])
    | p0 :: _ =>
      let pid := jsOrId ((propertiesData.get? s.selectedProperty).map
        (fun p => p.id)) p0.id
      let r := loadRooms s1 remote roomsOk bookingsOk pid
      ({ r.1 with loading := false }, NetRequest.selectProperties :: r.2)
  else
    ({ s0 with
        error := some "Failed to load data. Check your connection.",
        loading := false }, [NetRequest.selectProperties])

/-- The `selectedProperty` effect (App.js 151-155): when properties are
loaded, re-fetch rooms (and then bookings) for the selected property. -/
def onPropertyChange (s : AppState) (remote : Remote)
    (roomsOk bookingsOk : Bool) : AppState × List NetRequest :=
  if s.properties.length > 0 then
    loadRooms s remote roomsOk bookingsOk
      ((s.properties.getD s.selectedProperty ⟨0, ""⟩).id)
  else (s, [])

/-- Result of a `toggleRoomBooking` invocation: the new local state, the
remote tables after any confirmed mutation, the network requests issued,
the alert messages shown, and whether the one-second follow-up bookings
refresh was scheduled. -/
structure ToggleOutput where
  state : AppState
  remote : Remote
  requests : List NetRequest
  alerts : List String
  scheduledRefresh : Bool
deriving DecidableEq

/-- Function `toggleRoomBooking(roomId)` (App.js 161-217). Offline guard: alert
and return with nothing touched. Otherwise set loading and look up an
existing booking for the room in the local list. If present, delete
that row by id and on success drop it locally; if absent, insert
`{room_id, booking_date: selectedDate, is_booked: true}` and on success
append the returned row (the backend assigns id `newId`). On success a
follow-up bookings refresh is scheduled; on failure an alert is shown
and `loadBookings()` runs at once to reconcile. The finally block
clears loading. -/
def toggleRoomBooking (s : AppState) (remote : Remote) (roomId newId : Nat)
    (deleteOk insertOk reconcileOk : Bool) : ToggleOutput :=
  if s.isOnline = false then
    { state := s, remote := remote, requests := [],
      alerts := ["No internet connection. Please check your connection and try again."],
      scheduledRefresh := false }
  else
    let s1 := { s with loading := true }
    match s.bookings.find? (fun b => b.room_id == roomId) with
    | some existingBooking =>
      if deleteOk then
        let remote1 := { remote with
          bookings := remote.bookings.filter
            (fun b => b.id != existingBooking.id) }
        let s2 := { s1 with
          bookings := s1.bookings.filter
            (fun b => b.id != existingBooking.id) }
        { state := { s2 with loading := false }, remote := remote1,
          requests := [NetRequest.deleteBooking existingBooking.id],
          alerts := [], scheduledRefresh := true }
      else
        let r := loadBookings s1 remote reconcileOk s.rooms
        { state := { r.1 with loading := false }, remote := remote,
          requests := NetRequest.deleteBooking existingBooking.id :: r.2,
          alerts := ["Error updating booking. Please try again."],
          scheduledRefresh := false }
    | none =>
      if insertOk then
        let newRow : Booking :=
          { id := newId, room_id := roomId, booking_date := s.selectedDate,
            is_booked := true }
        let remote1 := { remote with bookings := remote.bookings ++ [newRow] }
        let s2 := { s1 with bookings := s1.bookings ++ [newRow] }
        { state := { s2 with loading := false }, remote := remote1,
          requests := [NetRequest.insertBooking roomId s.selectedDate true],
          alerts := [], scheduledRefresh := true }
      else
        let r := loadBookings s1 remote reconcileOk s.rooms
        { state := { r.1 with loading := false }, remote := remote,
          requests := NetRequest.insertBooking roomId s.selectedDate true :: r.2,
          alerts := ["Error updating booking. Please try again."],
          scheduledRefresh := false }

/-- The component state at mount (App.js 6-16): empty lists, selection
index 0, no error, loading true. -/
def initialState (date : String) (online : Bool) : AppState :=
  { properties := [], selectedProperty := 0, selectedDate := date,
    rooms := [], bookings := [], error := none, loading := true,
    isOnline := online }

/-- The blocking error view with its retry button is rendered exactly
when an error is set and no properties are loaded (App.js 510). -/
def showsErrorView (s : AppState) : Bool :=
  s.error.isSome && s.properties.isEmpty

/-! ### Concrete fixtures used by witnesses and counterexamples -/

def sampleProperty : Property := ⟨1, "Main House"⟩

def sampleRoom : Room := ⟨10, 1, "Room A", "Suite"⟩

def sampleRoomB : Room := ⟨11, 1, "Room B", "Suite"⟩

def sampleBooking : Booking := ⟨100, 10, "2024-01-01", true⟩

def sampleRemote : Remote :=
  ⟨[sampleProperty], [sampleRoom, sampleRoomB], [sampleBooking]⟩

def sampleState : AppState :=
  { properties := [sampleProperty], selectedProperty := 0,
    selectedDate := "2024-01-01", rooms := [sampleRoom, sampleRoomB],
    bookings := [sampleBooking], error := none, loading := false,
    isOnline := true }

def sampleProperty2 : Property := ⟨2, "Annex"⟩

/-- Remote tables where property 2 exists but owns no rooms. -/
def remoteNoAnnexRooms : Remote :=
  ⟨[sampleProperty, sampleProperty2], [sampleRoom], [sampleBooking]⟩

/-- A state that has just switched its selection to property 2 while
still holding the rooms and bookings loaded for property 1. -/
def stateSwitchedToAnnex : AppState :=
  { properties := [sampleProperty, sampleProperty2], selectedProperty := 1,
    selectedDate := "2024-01-01", rooms := [sampleRoom],
    bookings := [sampleBooking], error := none, loading := false,
    isOnline := true }

/-! ### General helper lemmas -/

theorem length_filter_not_add_length_filter {α : Type} (l : List α)
    (p : α → Bool) :
    (l.filter (fun a => !p a)).length + (l.filter p).length = l.length := by
  induction l with
  | nil => rfl
  | cons a l ih =>
    cases hpa : p a <;> simp [List.filter_cons, hpa] <;> omega

theorem isRoomBooked_cons (bk : Booking) (bookings : List Booking)
    (bookedBefore : ∃ b ∈ bookings, b.room_id = bk.room_id) (r : Nat) :
    isRoomBooked (bk :: bookings) r = isRoomBooked bookings r := by
  simp only [isRoomBooked, List.any_cons]
  cases hr : (bk.room_id == r) with
  | false => simp
  | true =>
    obtain ⟨b, hb, hbid⟩ := bookedBefore
    have hany : bookings.any (fun booking => booking.room_id == r) = true := by
      rw [List.any_eq_true]
      exact ⟨b, hb, by rw [hbid]; exact hr⟩
    simp [hany]

theorem firstIdx_cons (y c : String) (l : List String) :
    firstIdx (y :: l) c = bif y == c then 0 else firstIdx l c + 1 :=
  List.findIdx_cons (fun x => x == c) y l

theorem firstIdx_append_left (p l : List String) (c : String) (h : c ∈ p) :
    firstIdx (p ++ l) c = firstIdx p c := by
  induction p with
  | nil => cases h
  | cons a p ih =>
    rw [List.cons_append, firstIdx_cons, firstIdx_cons]
    cases hac : (a == c) with
    | true => rfl
    | false =>
      have : c ∈ p := by
        rcases List.mem_cons.mp h with he | hm
        · rw [he] at hac; simp at hac
        · exact hm
      rw [ih this]

theorem firstIdx_lt_length (p : List String) (c : String) (h : c ∈ p) :
    firstIdx p c < p.length :=
  List.findIdx_lt_length_of_exists ⟨c, h, by simp⟩

theorem firstIdx_append_right (p l : List String) (c : String) (h : c ∉ p) :
    firstIdx (p ++ l) c = p.length + firstIdx l c := by
  induction p with
  | nil => simp [List.nil_append]
  | cons a p ih =>
    rw [List.cons_append, firstIdx_cons]
    have hac : (a == c) = false := by
      cases hac : (a == c) with
      | false => rfl
      | true => exact absurd (List.mem_cons.mpr (Or.inl (eq_of_beq hac).symm)) h
    rw [hac]
    have : c ∉ p := fun hm => h (List.mem_cons.mpr (Or.inr hm))
    simp [ih this, List.length_cons]
    omega

theorem jsSet_foldl_spec (L : List String) :
    ∀ (l acc p : List String), L = p ++ l →
    (∀ a, a ∈ acc ↔ a ∈ p) →
    acc.Nodup →
    acc.Pairwise (fun a b => firstIdx L a < firstIdx L b) →
    ((l.foldl jsSetInsert acc).Nodup ∧
     (∀ a, a ∈ l.foldl jsSetInsert acc ↔ a ∈ p ∨ a ∈ l) ∧
     (l.foldl jsSetInsert acc).Pairwise
       (fun a b => firstIdx L a < firstIdx L b)) := by
  intro l
  induction l with
  | nil =>
    intro acc p hL hmem hnd hpw
    refine ⟨hnd, fun a => ?_, hpw⟩
    simp [hmem a]
  | cons y l ih =>
    intro acc p hL hmem hnd hpw
    rw [List.foldl_cons]
    have hL' : L = (p ++ [y]) ++ l := by
      rw [hL, List.append_assoc, List.singleton_append]
    by_cases hy : y ∈ acc
    · have hstep : jsSetInsert acc y = acc := by simp [jsSetInsert, hy]
      rw [hstep]
      have hmem' : ∀ a, a ∈ acc ↔ a ∈ p ++ [y] := by
        intro a
        rw [List.mem_append, List.mem_singleton, hmem a]
        constructor
        · exact Or.inl
        · rintro (hp | he)
          · exact hp
          · rw [he]; exact (hmem y).mp hy
      obtain ⟨h1, h2, h3⟩ := ih acc (p ++ [y]) hL' hmem' hnd hpw
      refine ⟨h1, fun a => ?_, h3⟩
      rw [h2 a, List.mem_append, List.mem_singleton, List.mem_cons]
      tauto
    · have hstep : jsSetInsert acc y = acc ++ [y] := by simp [jsSetInsert, hy]
      rw [hstep]
      have hyp : y ∉ p := fun hp => hy ((hmem y).mpr hp)
      have hmem' : ∀ a, a ∈ acc ++ [y] ↔ a ∈ p ++ [y] := by
        intro a
        rw [List.mem_append, List.mem_append, hmem a]
      have hnd' : (acc ++ [y]).Nodup := by
        rw [List.nodup_append]
        exact ⟨hnd, List.nodup_singleton y,
          fun a ha hs => hy (by rwa [List.mem_singleton.mp hs] at ha)⟩
      have hpw' : (acc ++ [y]).Pairwise
          (fun a b => firstIdx L a < firstIdx L b) := by
        rw [List.pairwise_append]
        refine ⟨hpw, List.pairwise_singleton _ y, fun a ha b hb => ?_⟩
        rw [List.mem_singleton.mp hb]
        have hap : a ∈ p := (hmem a).mp ha
        have h1 : firstIdx L a < p.length := by
          rw [hL, firstIdx_append_left p (y :: l) a hap]
          exact firstIdx_lt_length p a hap
        have h2 : firstIdx L y = p.length := by
          rw [hL, firstIdx_append_right p (y :: l) y hyp, firstIdx_cons]
          simp
        omega
      obtain ⟨h1, h2, h3⟩ := ih (acc ++ [y]) (p ++ [y]) hL' hmem' hnd' hpw'
      refine ⟨h1, fun a => ?_, h3⟩
      rw [h2 a, List.mem_append, List.mem_singleton, List.mem_cons]
      tauto

theorem loadRooms_ok_nonempty (s : AppState) (remote : Remote) (pid : Nat)
    (hne : selectRoomsQ remote pid ≠ []) :
    (loadRooms s remote true true pid).1 =
      { s with
        rooms := selectRoomsQ remote pid,
        bookings := selectBookingsQ remote
          ((selectRoomsQ remote pid).map (fun room => room.id))
          s.selectedDate } := by
  have hlen : (selectRoomsQ remote pid).length > 0 :=
    List.length_pos.mpr hne
  unfold loadRooms loadBookings
  simp only [if_true]
  rw [if_pos hlen, if_neg (by omega)]

theorem loadRooms_ok_empty (s : AppState) (remote : Remote)
    (bookingsOk : Bool) (pid : Nat)
    (hemp : selectRoomsQ remote pid = []) :
    (loadRooms s remote true bookingsOk pid).1 = { s with rooms := [] } := by
  unfold loadRooms
  rw [hemp]
  simp

theorem toggleRoomBooking_delete_eq (s : AppState) (remote : Remote)
    (roomId newId : Nat) (insertOk reconcileOk : Bool) (ex : Booking)
    (hon : s.isOnline = true)
    (hfind : s.bookings.find? (fun b => b.room_id == roomId) = some ex) :
    toggleRoomBooking s remote roomId newId true insertOk reconcileOk =
      { state := { s with
          bookings := s.bookings.filter (fun b => b.id != ex.id),
          loading := false },
        remote := { remote with
          bookings := remote.bookings.filter (fun b => b.id != ex.id) },
        requests := [NetRequest.deleteBooking ex.id],
        alerts := [], scheduledRefresh := true } := by
  unfold toggleRoomBooking
  rw [hon, hfind]
  simp

theorem toggleRoomBooking_insert_eq (s : AppState) (remote : Remote)
    (roomId newId : Nat) (deleteOk reconcileOk : Bool)
    (hon : s.isOnline = true)
    (hfind : s.bookings.find? (fun b => b.room_id == roomId) = none) :
    toggleRoomBooking s remote roomId newId deleteOk true reconcileOk =
      { state := { s with
          bookings := s.bookings ++
            [⟨newId, roomId, s.selectedDate, true⟩],
          loading := false },
        remote := { remote with
          bookings := remote.bookings ++
            [⟨newId, roomId, s.selectedDate, true⟩] },
        requests := [NetRequest.insertBooking roomId s.selectedDate true],
        alerts := [], scheduledRefresh := true } := by
  unfold toggleRoomBooking
  rw [hon, hfind]
  simp

/-! ### Claim theorems -/

/-- C1: for every room id `r` and every current booking list,
`isRoomBooked(r)` returns true if and only if the booking list contains
at least one entry whose `room_id` equals `r`. -/
theorem isRoomBooked_true_iff_exists (bookings : List Booking) (r : Nat) :
    isRoomBooked bookings r = true ↔ ∃ b ∈ bookings, b.room_id = r := by
  simp [isRoomBooked]

/-- C6: for every loaded room list and booking list,
`getAvailableRooms()` plus the number of booked rooms (rooms `r` with
`isRoomBooked(r)` true) equals `getTotalRooms()`. -/
theorem available_add_booked_eq_total (rooms : List Room)
    (bookings : List Booking) :
    getAvailableRooms rooms bookings +
      (rooms.filter (fun room => isRoomBooked bookings room.id)).length =
    getTotalRooms rooms :=
  length_filter_not_add_length_filter rooms
    (fun room => isRoomBooked bookings room.id)

/-- C10: a booking list that has several rows for one room (violating
the at-most-one-booking-per-room-and-date assumption) still counts that
room once: prepending an extra row `bk` for an already booked room
changes neither `getAvailableRooms`, nor the booked-room count, nor
`isRoomBooked` at that room. -/
theorem duplicate_booking_rows_count_once (rooms : List Room)
    (bookings : List Booking) (bk : Booking)
    (h : ∃ b ∈ bookings, b.room_id = bk.room_id) :
    getAvailableRooms rooms (bk :: bookings) =
        getAvailableRooms rooms bookings ∧
    (rooms.filter (fun room => isRoomBooked (bk :: bookings) room.id)).length =
        (rooms.filter (fun room => isRoomBooked bookings room.id)).length ∧
    isRoomBooked (bk :: bookings) bk.room_id =
        isRoomBooked bookings bk.room_id := by
  refine ⟨?_, ?_, isRoomBooked_cons bk bookings h bk.room_id⟩
  · unfold getAvailableRooms
    congr 1
    apply List.filter_congr
    intro room _
    rw [isRoomBooked_cons bk bookings h room.id]
  · congr 1
    apply List.filter_congr
    intro room _
    exact isRoomBooked_cons bk bookings h room.id

/-- Witness for C10 at a concrete duplicated booking list. -/
theorem duplicate_booking_rows_count_once_witness :
    getAvailableRooms [⟨10, 1, "A", "Suite"⟩]
        (⟨101, 10, "2024-01-01", true⟩ :: [⟨100, 10, "2024-01-01", true⟩]) =
      getAvailableRooms [⟨10, 1, "A", "Suite"⟩]
        [⟨100, 10, "2024-01-01", true⟩] ∧
    (([⟨10, 1, "A", "Suite"⟩] : List Room).filter
        (fun room => isRoomBooked
          (⟨101, 10, "2024-01-01", true⟩ ::
            [⟨100, 10, "2024-01-01", true⟩]) room.id)).length =
      (([⟨10, 1, "A", "Suite"⟩] : List Room).filter
        (fun room => isRoomBooked
          [⟨100, 10, "2024-01-01", true⟩] room.id)).length ∧
    isRoomBooked (⟨101, 10, "2024-01-01", true⟩ ::
        [⟨100, 10, "2024-01-01", true⟩])
        (Booking.room_id ⟨101, 10, "2024-01-01", true⟩) =
      isRoomBooked [⟨100, 10, "2024-01-01", true⟩]
        (Booking.room_id ⟨101, 10, "2024-01-01", true⟩) :=
  duplicate_booking_rows_count_once [⟨10, 1, "A", "Suite"⟩]
    [⟨100, 10, "2024-01-01", true⟩] ⟨101, 10, "2024-01-01", true⟩
    ⟨⟨100, 10, "2024-01-01", true⟩, by decide, rfl⟩

/-- C4: for every room id, if the client is offline when the toggle
operation is invoked, it performs no network call and leaves all local
state (properties, rooms, bookings, selection) and the remote tables
unchanged, producing only the offline notice. -/
theorem toggle_offline_noop (s : AppState) (remote : Remote)
    (roomId newId : Nat) (deleteOk insertOk reconcileOk : Bool)
    (hoff : s.isOnline = false) :
    toggleRoomBooking s remote roomId newId deleteOk insertOk reconcileOk =
      { state := s, remote := remote, requests := [],
        alerts := ["No internet connection. Please check your connection and try again."],
        scheduledRefresh := false } := by
  unfold toggleRoomBooking
  rw [hoff]
  simp

/-- Witness for C4: the offline guard fires on a concrete offline state. -/
theorem toggle_offline_noop_witness :
    toggleRoomBooking { sampleState with isOnline := false } sampleRemote
        10 500 true true true =
      { state := { sampleState with isOnline := false },
        remote := sampleRemote, requests := [],
        alerts := ["No internet connection. Please check your connection and try again."],
        scheduledRefresh := false } :=
  toggle_offline_noop { sampleState with isOnline := false } sampleRemote
    10 500 true true true rfl

/-- C5: online toggle behavior. If the local booking list has a booking
for the room, the operation issues a delete of exactly that booking row
by its id and, on success, removes it from the local booking list
(keeping exactly the rows with a different id). If it has none, the
operation issues an insert of
`{room_id: roomId, booking_date: selectedDate, is_booked: true}` and,
on success, appends the returned row to the local booking list. -/
theorem toggle_online_branches (s : AppState) (remote : Remote)
    (roomId newId : Nat) (reconcileOk : Bool) (ex : Booking)
    (hon : s.isOnline = true) :
    (s.bookings.find? (fun b => b.room_id == roomId) = some ex →
      (toggleRoomBooking s remote roomId newId true true reconcileOk).requests =
          [NetRequest.deleteBooking ex.id] ∧
      (toggleRoomBooking s remote roomId newId true true
          reconcileOk).state.bookings =
          s.bookings.filter (fun b => b.id != ex.id) ∧
      ex ∉ (toggleRoomBooking s remote roomId newId true true
          reconcileOk).state.bookings) ∧
    (s.bookings.find? (fun b => b.room_id == roomId) = none →
      (toggleRoomBooking s remote roomId newId true true reconcileOk).requests =
          [NetRequest.insertBooking roomId s.selectedDate true] ∧
      (toggleRoomBooking s remote roomId newId true true
          reconcileOk).state.bookings =
          s.bookings ++ [⟨newId, roomId, s.selectedDate, true⟩]) := by
  constructor
  · intro hfind
    rw [toggleRoomBooking_delete_eq s remote roomId newId true reconcileOk ex
      hon hfind]
    refine ⟨rfl, rfl, ?_⟩
    intro hmem
    have := (List.mem_filter.mp hmem).2
    simp at this
  · intro hfind
    rw [toggleRoomBooking_insert_eq s remote roomId newId true reconcileOk
      hon hfind]
    exact ⟨rfl, rfl⟩

/-- Witness for C5 at a concrete online state whose booking list books
room 10 (row id 100) and does not book room 11. -/
theorem toggle_online_branches_witness :
    (sampleState.bookings.find? (fun b => b.room_id == 10) =
        some sampleBooking →
      (toggleRoomBooking sampleState sampleRemote 10 500 true true
          true).requests = [NetRequest.deleteBooking sampleBooking.id] ∧
      (toggleRoomBooking sampleState sampleRemote 10 500 true true
          true).state.bookings =
          sampleState.bookings.filter (fun b => b.id != sampleBooking.id) ∧
      sampleBooking ∉ (toggleRoomBooking sampleState sampleRemote 10 500
          true true true).state.bookings) ∧
    (sampleState.bookings.find? (fun b => b.room_id == 10) = none →
      (toggleRoomBooking sampleState sampleRemote 10 500 true true
          true).requests =
          [NetRequest.insertBooking 10 sampleState.selectedDate true] ∧
      (toggleRoomBooking sampleState sampleRemote 10 500 true true
          true).state.bookings =
          sampleState.bookings ++ [⟨500, 10, sampleState.selectedDate, true⟩]) :=
  toggle_online_branches sampleState sampleRemote 10 500 true sampleBooking
    rfl

/-- C3: toggling a room with no existing booking twice in succession
(all remote calls succeeding, no concurrent external mutation) returns
the local booking list to its original membership for that room. -/
theorem toggle_twice_restores_membership (s : AppState) (remote : Remote)
    (roomId newId newId2 : Nat)
    (hon : s.isOnline = true)
    (habs : s.bookings.find? (fun b => b.room_id == roomId) = none) :
    ((toggleRoomBooking
        (toggleRoomBooking s remote roomId newId true true true).state
        (toggleRoomBooking s remote roomId newId true true true).remote
        roomId newId2 true true true).state.bookings.filter
        (fun b => b.room_id == roomId)) =
      s.bookings.filter (fun b => b.room_id == roomId) := by
  have h1 := toggleRoomBooking_insert_eq s remote roomId newId true true
    hon habs
  rw [h1]
  set newRow : Booking := ⟨newId, roomId, s.selectedDate, true⟩ with hnew
  have hfind2 : (s.bookings ++ [newRow]).find?
      (fun b => b.room_id == roomId) = some newRow := by
    rw [List.find?_append, habs]
    simp [hnew]
  have h2 := toggleRoomBooking_delete_eq
    { s with bookings := s.bookings ++ [newRow], loading := false }
    { remote with bookings := remote.bookings ++ [newRow] }
    roomId newId2 true true newRow hon hfind2
  rw [h2]
  have hforall := List.find?_eq_none.mp habs
  have hrhs : s.bookings.filter (fun b => b.room_id == roomId) = [] := by
    rw [List.filter_eq_nil_iff]
    exact hforall
  rw [hrhs, List.filter_eq_nil_iff]
  intro a ha
  have ha1 := (List.mem_filter.mp ha).1
  have ha2 := (List.mem_filter.mp ha).2
  rcases List.mem_append.mp ha1 with hin | hin
  · exact hforall a hin
  · rw [List.mem_singleton.mp hin] at ha2
    simp [hnew] at ha2

/-- Witness for C3: round trip on room 11, which has no booking in the
sample state. -/
theorem toggle_twice_restores_membership_witness :
    ((toggleRoomBooking
        (toggleRoomBooking sampleState sampleRemote 11 500 true true
          true).state
        (toggleRoomBooking sampleState sampleRemote 11 500 true true
          true).remote
        11 501 true true true).state.bookings.filter
        (fun b => b.room_id == 11)) =
      sampleState.bookings.filter (fun b => b.room_id == 11) :=
  toggle_twice_restores_membership sampleState sampleRemote 11 500 501
    rfl rfl

/-- C9: when the current room list is empty, `loadBookings` performs no
fetch (issues no request) and leaves the state, in particular the
booking list, unchanged. -/
theorem loadBookings_empty_rooms_noop (s : AppState) (remote : Remote)
    (ok : Bool) (hempty : s.rooms = []) :
    loadBookings s remote ok s.rooms = (s, []) := by
  rw [hempty]
  rfl

/-- Witness for C9: a state with an empty room list but a non-empty
booking list keeps its bookings and issues no request. -/
theorem loadBookings_empty_rooms_noop_witness :
    loadBookings { sampleState with rooms := [] } sampleRemote true
        (AppState.rooms { sampleState with rooms := [] }) =
      ({ sampleState with rooms := [] }, []) :=
  loadBookings_empty_rooms_noop { sampleState with rooms := [] }
    sampleRemote true rfl

/-- C2 counterexample: a failed rooms fetch issues its select request
and leaves the state intact, but surfaces no user-visible error message
(the error field stays `none`; the catch branch only writes to the
console), refuting the claim that every fetch failure surfaces a
user-visible error. -/
theorem rooms_fetch_failure_is_silent :
    (loadRooms sampleState sampleRemote false true 1).2 =
        [NetRequest.selectRooms 1] ∧
    (loadRooms sampleState sampleRemote false true 1).1 = sampleState ∧
    (loadRooms sampleState sampleRemote false true 1).1.error = none :=
  ⟨rfl, rfl, rfl⟩

/-- C2 amended: a properties-fetch failure in `loadData` surfaces the
user-visible error message and leaves the previously loaded properties,
rooms and bookings unchanged; rooms-fetch and bookings-fetch failures
leave the whole state unchanged but surface no user-visible error; on
the very first load, a properties-fetch failure leaves the store empty
and the blocking error view with its retry action is shown. -/
theorem fetch_failure_handling (s : AppState) (remote : Remote)
    (roomsOk bookingsOk : Bool) (pid : Nat) (roomsData : List Room)
    (date : String) (online : Bool) :
    ((loadData s remote false roomsOk bookingsOk).1 =
      { s with
        error := some "Failed to load data. Check your connection.",
        loading := false }) ∧
    ((loadRooms s remote false bookingsOk pid).1 = s) ∧
    ((loadBookings s remote false roomsData).1 = s) ∧
    ((loadData (initialState date online) remote false roomsOk
        bookingsOk).1.properties = [] ∧
      (loadData (initialState date online) remote false roomsOk
        bookingsOk).1.rooms = [] ∧
      (loadData (initialState date online) remote false roomsOk
        bookingsOk).1.bookings = [] ∧
      showsErrorView (loadData (initialState date online) remote false
        roomsOk bookingsOk).1 = true) := by
  refine ⟨rfl, rfl, ?_, rfl, rfl, rfl, rfl⟩
  unfold loadBookings
  split
  · rfl
  · rfl

/-- C7 counterexample: switching to a property whose room fetch returns
no rooms leaves the previously loaded booking list in place, so the
local booking list holds a booking whose room is not in the (empty) new
room set. -/
theorem stale_bookings_after_property_change :
    (onPropertyChange stateSwitchedToAnnex remoteNoAnnexRooms true
        true).1.rooms = [] ∧
    (onPropertyChange stateSwitchedToAnnex remoteNoAnnexRooms true
        true).1.bookings = [sampleBooking] ∧
    ((onPropertyChange stateSwitchedToAnnex remoteNoAnnexRooms true
        true).1.bookings.all (fun b =>
        (onPropertyChange stateSwitchedToAnnex remoteNoAnnexRooms true
          true).1.rooms.any (fun room => room.id == b.room_id))) =
      false := by
  refine ⟨?_, ?_, ?_⟩ <;> decide

/-- C7 amended: after the selected property changes and both re-fetches
succeed, if the room fetch returns a non-empty room set then the local
booking list contains only bookings for rooms in the new room set;
if it returns an empty room set, the bookings re-fetch is skipped and
the previous booking list persists unchanged. -/
theorem property_change_scoped_bookings (s : AppState) (remote : Remote)
    (hprops : 0 < s.properties.length) :
    (selectRoomsQ remote
        ((s.properties.getD s.selectedProperty ⟨0, ""⟩).id) ≠ [] →
      ((onPropertyChange s remote true true).1.bookings.all (fun b =>
        (onPropertyChange s remote true true).1.rooms.any
          (fun room => room.id == b.room_id))) = true) ∧
    (selectRoomsQ remote
        ((s.properties.getD s.selectedProperty ⟨0, ""⟩).id) = [] →
      (onPropertyChange s remote true true).1.bookings = s.bookings ∧
      (onPropertyChange s remote true true).1.rooms = []) := by
  have hopc : onPropertyChange s remote true true =
      loadRooms s remote true true
        ((s.properties.getD s.selectedProperty ⟨0, ""⟩).id) := by
    unfold onPropertyChange
    rw [if_pos hprops]
  constructor
  · intro hne
    rw [hopc,
      loadRooms_ok_nonempty s remote
        ((s.properties.getD s.selectedProperty ⟨0, ""⟩).id) hne]
    rw [List.all_eq_true]
    intro b hb
    simp only [selectBookingsQ, List.mem_filter] at hb
    obtain ⟨hmem, hpred⟩ := hb
    rw [Bool.and_eq_true] at hpred
    have hcont := List.elem_iff.mp hpred.1
    obtain ⟨room, hroom, hid⟩ := List.mem_map.mp hcont
    rw [List.any_eq_true]
    exact ⟨room, hroom, by simp [hid]⟩
  · intro hemp
    rw [hopc,
      loadRooms_ok_empty s remote true
        ((s.properties.getD s.selectedProperty ⟨0, ""⟩).id) hemp]
    exact ⟨rfl, rfl⟩

/-- Witness for C7 (amended) at the sample state, whose selected
property has a non-empty room set. -/
theorem property_change_scoped_bookings_witness :
    (selectRoomsQ sampleRemote
        ((sampleState.properties.getD sampleState.selectedProperty
          ⟨0, ""⟩).id) ≠ [] →
      ((onPropertyChange sampleState sampleRemote true
          true).1.bookings.all (fun b =>
        (onPropertyChange sampleState sampleRemote true true).1.rooms.any
          (fun room => room.id == b.room_id))) = true) ∧
    (selectRoomsQ sampleRemote
        ((sampleState.properties.getD sampleState.selectedProperty
          ⟨0, ""⟩).id) = [] →
      (onPropertyChange sampleState sampleRemote true true).1.bookings =
        sampleState.bookings ∧
      (onPropertyChange sampleState sampleRemote true true).1.rooms =
        []) :=
  property_change_scoped_bookings sampleState sampleRemote (by decide)

/-- C8: `getUniqueCategories()` returns the category values without
duplicates, containing exactly the categories occurring in the room
list, ordered by the index of their first occurrence (no sorting or
reordering); and `getRoomsByCategory(c)` returns exactly the rooms
whose category equals `c`, in their order in the room list. -/
theorem categories_first_occurrence_and_grouping (rooms : List Room)
    (c : String) :
    (getUniqueCategories rooms).Nodup ∧
    (∀ x, x ∈ getUniqueCategories rooms ↔
      x ∈ rooms.map (fun room => room.category)) ∧
    (getUniqueCategories rooms).Pairwise (fun a b =>
      firstIdx (rooms.map (fun room => room.category)) a <
        firstIdx (rooms.map (fun room => room.category)) b) ∧
    (∀ r, r ∈ getRoomsByCategory rooms c ↔ r ∈ rooms ∧ r.category = c) ∧
    (getRoomsByCategory rooms c).Sublist rooms := by
  obtain ⟨h1, h2, h3⟩ := jsSet_foldl_spec
    (rooms.map (fun room => room.category))
    (rooms.map (fun room => room.category)) [] []
    (List.nil_append _).symm (fun a => Iff.rfl) List.nodup_nil
    List.Pairwise.nil
  refine ⟨h1, fun x => ?_, h3, fun r => ?_, List.filter_sublist _⟩
  · simpa [getUniqueCategories, jsSetOfList] using h2 x
  · simp [getRoomsByCategory]
